import Mathlib

/-!
Shallow embedding of the `kf` command-layer slice:
`pkg/kf/commands/spaces/config_space.go` (space mutators and accessors) and
`pkg/kf/commands/routes/proxy_route.go` (host-rewriting reverse proxy),
with theorems settling the specification claims about them.
-/

set_option maxHeartbeats 1000000

namespace Kf

/-- A domain entry of a space (`v1alpha1.SpaceDomain`): a name and an
is-default flag.  The Go zero value of `Default` is `false`. -/
structure SpaceDomain where
  Domain : String
  Default : Bool
deriving DecidableEq, Repr

/-- An environment variable (`corev1.EnvVar`): a name and a value. -/
structure EnvVar where
  Name : String
  Value : String
deriving DecidableEq, Repr

/-- Execution section of a space spec (`space.Spec.Execution`): the
execution-time environment variables and the ordered list of domains. -/
structure SpaceSpecExecution where
  Env : List EnvVar
  Domains : List SpaceDomain
deriving DecidableEq, Repr

/-- Buildpack-build section of a space spec (`space.Spec.BuildpackBuild`). -/
structure SpaceSpecBuildpackBuild where
  ContainerRegistry : String
  BuilderImage : String
  Env : List EnvVar
deriving DecidableEq, Repr

/-- Space spec (`space.Spec`), restricted to the fields the commands touch. -/
structure SpaceSpec where
  Execution : SpaceSpecExecution
  BuildpackBuild : SpaceSpecBuildpackBuild
deriving DecidableEq, Repr

/-- The configuration object being edited (`v1alpha1.Space`). -/
structure Space where
  Spec : SpaceSpec
deriving DecidableEq, Repr

/-- Replace the execution domain list of a space. -/
def Space.withExecDomains (s : Space) (ds : List SpaceDomain) : Space :=
  { s with Spec := { s.Spec with Execution := { s.Spec.Execution with Domains := ds } } }

/-- Replace the execution env list of a space. -/
def Space.withExecEnv (s : Space) (e : List EnvVar) : Space :=
  { s with Spec := { s.Spec with Execution := { s.Spec.Execution with Env := e } } }

/-- Replace the buildpack-build env list of a space. -/
def Space.withBuildpackEnv (s : Space) (e : List EnvVar) : Space :=
  { s with Spec := { s.Spec with BuildpackBuild := { s.Spec.BuildpackBuild with Env := e } } }

/-!
A Go mutator `func(space *v1alpha1.Space) error` mutates the space in place
and returns an optional error.  It is embedded as a function
`Space → Space × Option String`: the resulting state of the space together
with the error, so that in-place mutations that happen before an error
return are captured faithfully.
-/

/-- The in-place scan of `newSetDefaultDomainMutator`'s closure
(config_space.go lines 270-278): walks the domain list, sets the flag of
every non-matching entry to `false` and of every matching entry to `true`,
and reports whether any entry matched. -/
def setDefaultDomainLoop (domain : String) : List SpaceDomain → List SpaceDomain × Bool
  | [] => ([], false)
  | d :: rest =>
    let step := setDefaultDomainLoop domain rest
    if d.Domain ≠ domain then
      ({ d with Default := false } :: step.1, step.2)
    else
      ({ d with Default := true } :: step.1, true)

/-- The mutator built by `newSetDefaultDomainMutator` (config_space.go
lines 260-287): scan all domains as in `setDefaultDomainLoop`; if no entry
matched, return the error `failed to find domain <domain>` — the flags
already written during the scan remain, since the space was mutated in
place. -/
def setDefaultDomainMutator (domain : String) (space : Space) : Space × Option String :=
  let r := setDefaultDomainLoop domain space.Spec.Execution.Domains
  let space' := space.withExecDomains r.1
  if r.2 then (space', none)
  else (space', some ("failed to find domain " ++ domain))

/-- The mutator built by `newAppendDomainMutator` (config_space.go lines
239-258): append `{Domain: domain}` (so `Default` is the Go zero value
`false`) to the domain list; never errors. -/
def appendDomainMutator (domain : String) (space : Space) : Space × Option String :=
  (space.withExecDomains
    (space.Spec.Execution.Domains ++ [{ Domain := domain, Default := false }]), none)

/-- Modelled from the spec: `algorithms.Delete` on `v1alpha1.SpaceDomains`
(package `pkg/kf/algorithms`, not part of this slice).  Per the spec it is
"generic set difference keyed by domain name", realised as an ordered
filter that drops every entry whose name occurs among the entries to
remove. -/
def Delete (ds toRemove : List SpaceDomain) : List SpaceDomain :=
  ds.filter (fun d => !(toRemove.any (fun r => r.Domain == d.Domain)))

/-- The mutator built by `newRemoveDomainMutator` (config_space.go lines
289-308): set-difference the domain list against the singleton
`{Domain: domain}`; never errors. -/
def removeDomainMutator (domain : String) (space : Space) : Space × Option String :=
  (space.withExecDomains
    (Delete space.Spec.Execution.Domains [{ Domain := domain, Default := false }]), none)

/-- Modelled from the spec: `envutil.RemoveEnvVars` (package
`pkg/internal/envutil`, not part of this slice).  Per the spec, removal
preserves the order of the remaining variables: it is an ordered filter
dropping every variable whose name occurs in `names`. -/
def RemoveEnvVars (names : List String) (env : List EnvVar) : List EnvVar :=
  env.filter (fun e => !(names.any (fun n => n == e.Name)))

/-- The mutator built by `newSetEnvMutator` (config_space.go lines
163-181): remove every variable named `name` from the execution env, then
append `{Name: name, Value: value}`; never errors. -/
def setEnvMutator (name value : String) (space : Space) : Space × Option String :=
  let tmp := RemoveEnvVars [name] space.Spec.Execution.Env
  (space.withExecEnv (tmp ++ [{ Name := name, Value := value }]), none)

/-- The mutator built by `newUnsetEnvMutator` (config_space.go lines
183-199): remove every variable named `name` from the execution env;
never errors. -/
def unsetEnvMutator (name : String) (space : Space) : Space × Option String :=
  (space.withExecEnv (RemoveEnvVars [name] space.Spec.Execution.Env), none)

/-- The mutator built by `newSetBuildpackEnvMutator` (config_space.go lines
201-219): like `setEnvMutator` but on the buildpack-build env. -/
def setBuildpackEnvMutator (name value : String) (space : Space) : Space × Option String :=
  let tmp := RemoveEnvVars [name] space.Spec.BuildpackBuild.Env
  (space.withBuildpackEnv (tmp ++ [{ Name := name, Value := value }]), none)

/-- The mutator built by `newUnsetBuildpackEnvMutator` (config_space.go
lines 221-237): like `unsetEnvMutator` but on the buildpack-build env. -/
def unsetBuildpackEnvMutator (name : String) (space : Space) : Space × Option String :=
  (space.withBuildpackEnv (RemoveEnvVars [name] space.Spec.BuildpackBuild.Env), none)

/-!
Proxy side: `pkg/kf/commands/routes/proxy_route.go`.
-/

/-- Modelled from the spec: `istio.ExtractIngressFromList` (package
`pkg/kf/istio`, not part of this slice) — the GatewayResolver.  Per the
spec: exactly one candidate is returned as is; zero candidates is the
error "no gateway found"; more than one is the error "ambiguous gateway,
specify explicitly". -/
def ExtractIngressFromList : List String → Except String String
  | [] => .error "no gateway found"
  | [g] => .ok g
  | _ :: _ :: _ => .error "ambiguous gateway, specify explicitly"

/-- Parsed request URL: the fields `req.URL.Scheme`, `req.URL.Host` and the
request-URI part the director leaves alone. -/
structure RequestURL where
  Scheme : String
  Host : String
  Path : String
deriving DecidableEq, Repr

/-- An inbound HTTP request, restricted to the fields the director reads or
writes (`http.Request`). -/
structure Request where
  Host : String
  Method : String
  URL : RequestURL
  Body : String
deriving DecidableEq, Repr

/-- The `Director` closure of `createProxy` (proxy_route.go lines 126-133):
sets the request's host to the target route host, the scheme to "http" and
the URL host (network destination) to the gateway; everything else is left
as it came in. -/
def createProxyDirector (routeHost gateway : String) (req : Request) : Request :=
  { req with
    Host := routeHost
    URL := { req.URL with Scheme := "http", Host := gateway } }

/-- Gateway selection in `NewProxyRouteCommand`'s `RunE` (proxy_route.go
lines 59-67): an explicit `--gateway` flag bypasses autodetection; an empty
flag autodetects via `ExtractIngressFromList`. -/
def resolveGateway (gatewayFlag : String) (candidates : List String) : Except String String :=
  if gatewayFlag = "" then ExtractIngressFromList candidates else .ok gatewayFlag

/-- Outcome of one run of the proxy command: the lines printed to the
command's output stream, whether `http.Serve` was reached (and hence
whether the listener ever accepts), and the returned error. -/
structure ProxyRunResult where
  printed : List String
  served : Bool
  err : Option String
deriving DecidableEq, Repr

/-- The informational lines printed after the listener is bound
(proxy_route.go lines 75-85). -/
def proxyInfoLines (host gateway listenerAddr : String) : List String :=
  [ "Forwarding requests from " ++ listenerAddr ++ " to " ++ gateway ++ " with host " ++ host,
    "Example GET:",
    "  curl " ++ listenerAddr,
    "  (curl -H \"Host: " ++ host ++ "\" http://" ++ gateway ++ ")",
    "Example POST:",
    "  curl --request POST " ++ listenerAddr ++ " --data \"POST data\"",
    "  (curl --request POST -H \"Host: " ++ host ++ "\" http://" ++ gateway ++ " --data \"POST data\")",
    "Browser link:",
    "  http://" ++ listenerAddr,
    "" ]

/-- The `RunE` body of `NewProxyRouteCommand` (proxy_route.go lines 51-93),
after a successful namespace validation and listener bind (both external):
resolve the gateway (printing the autodetection notice when the flag is
empty), print the informational lines, and either stop before serving when
`noStart` is set or hand the listener to `http.Serve`. -/
def proxyRouteRun (host gatewayFlag : String) (candidates : List String)
    (listenerAddr : String) (noStart : Bool) : ProxyRunResult :=
  let autoLines : List String :=
    if gatewayFlag = "" then
      ["Autodetecting app gateway. Specify a custom gateway using the --gateway flag."]
    else []
  match resolveGateway gatewayFlag candidates with
  | .error e => { printed := autoLines, served := false, err := some e }
  | .ok gateway =>
    let infoLines := proxyInfoLines host gateway listenerAddr
    if noStart then
      { printed := autoLines ++ infoLines ++ ["exiting because no-start flag was provided"],
        served := false, err := none }
    else
      { printed := autoLines ++ infoLines, served := true, err := none }

/-- A space with the given execution env, domains and buildpack env, used
for concrete evaluations. -/
def mkSpace (env : List EnvVar) (ds : List SpaceDomain) (benv : List EnvVar) : Space :=
  { Spec := { Execution := { Env := env, Domains := ds },
              BuildpackBuild :=
                { ContainerRegistry := "gcr.io/test", BuilderImage := "builder", Env := benv } } }

/-- A space whose domain list holds two entries with the same name. -/
def spaceDupA : Space := mkSpace [] [⟨"a", false⟩, ⟨"a", false⟩] []

/-- A space with a single domain entry that is marked default. -/
def spaceDefaultA : Space := mkSpace [] [⟨"a", true⟩] []

/-- A space with two env vars, two domains (one default) and one buildpack
env var. -/
def sampleSpace : Space :=
  mkSpace [⟨"A", "1"⟩, ⟨"B", "2"⟩] [⟨"a", true⟩, ⟨"b", false⟩] [⟨"J", "11"⟩]

/-- Characterisation of the set-default scan: the resulting list marks an
entry default exactly when its name matches, and the found flag is the
disjunction of the matches. -/
theorem setDefaultDomainLoop_eq (domain : String) (ds : List SpaceDomain) :
    setDefaultDomainLoop domain ds =
      (ds.map (fun d => { d with Default := d.Domain == domain }),
       ds.any (fun d => d.Domain == domain)) := by
  induction ds with
  | nil => rfl
  | cons d rest ih =>
    simp only [setDefaultDomainLoop, ih, List.map_cons, List.any_cons]
    by_cases h : d.Domain = domain
    · simp [h]
    · simp [h]

/-- The domain lists produced by `setDefaultDomainMutator`, in closed
form. -/
theorem setDefaultDomainMutator_fst (domain : String) (s : Space) :
    (setDefaultDomainMutator domain s).1 =
      s.withExecDomains (s.Spec.Execution.Domains.map
        (fun d => { d with Default := d.Domain == domain })) := by
  unfold setDefaultDomainMutator
  rw [setDefaultDomainLoop_eq]
  by_cases h : s.Spec.Execution.Domains.any (fun d => d.Domain == domain) <;> simp [h]

/-- The error produced by `setDefaultDomainMutator`: `none` exactly when
some entry matches. -/
theorem setDefaultDomainMutator_snd (domain : String) (s : Space) :
    (setDefaultDomainMutator domain s).2 =
      (if s.Spec.Execution.Domains.any (fun d => d.Domain == domain) then none
       else some ("failed to find domain " ++ domain)) := by
  unfold setDefaultDomainMutator
  rw [setDefaultDomainLoop_eq]
  by_cases h : s.Spec.Execution.Domains.any (fun d => d.Domain == domain) <;> simp [h]

/-- C1 counterexample: on a space whose domain list holds two entries both
named "a", `set-default-domain a` succeeds but afterwards TWO entries have
their default flag set to true, not exactly one. -/
theorem C1_counterexample :
    (setDefaultDomainMutator "a" spaceDupA).2 = none ∧
    ((setDefaultDomainMutator "a" spaceDupA).1.Spec.Execution.Domains.filter
      (fun d => d.Default)).length = 2 ∧
    ¬ ((setDefaultDomainMutator "a" spaceDupA).1.Spec.Execution.Domains.filter
      (fun d => d.Default)).length = 1 := by
  refine ⟨by decide, by decide, by decide⟩

/-- C1 (amended): when the domain argument matches at least one entry, the
mutator succeeds and afterwards an entry has its default flag true exactly
when its name equals the argument; hence when exactly one entry bears the
matching name, exactly one entry is default afterwards. -/
theorem C1_set_default_marks_all_matching (domain : String) (s : Space)
    (hmatch : s.Spec.Execution.Domains.any (fun d => d.Domain == domain) = true) :
    (setDefaultDomainMutator domain s).2 = none ∧
    (setDefaultDomainMutator domain s).1.Spec.Execution.Domains =
      s.Spec.Execution.Domains.map (fun d => { d with Default := d.Domain == domain }) ∧
    ((s.Spec.Execution.Domains.filter (fun d => d.Domain == domain)).length = 1 →
      ((setDefaultDomainMutator domain s).1.Spec.Execution.Domains.filter
        (fun d => d.Default)).length = 1) := by
  refine ⟨?_, ?_, ?_⟩
  · rw [setDefaultDomainMutator_snd, hmatch]
    rfl
  · rw [setDefaultDomainMutator_fst]
    rfl
  · intro hone
    rw [setDefaultDomainMutator_fst]
    show ((s.Spec.Execution.Domains.map
      (fun d => { d with Default := d.Domain == domain })).filter (fun d => d.Default)).length = 1
    rw [List.filter_map]
    rw [List.length_map]
    convert hone using 2

/-- C1 witness: on a space with domains [a (default), b], set-default "a"
succeeds and leaves exactly one default entry. -/
theorem C1_set_default_marks_all_matching_witness :
    (setDefaultDomainMutator "a" sampleSpace).2 = none ∧
    ((setDefaultDomainMutator "a" sampleSpace).1.Spec.Execution.Domains.filter
      (fun d => d.Default)).length = 1 := by
  have h := C1_set_default_marks_all_matching "a" sampleSpace (by decide)
  exact ⟨h.1, h.2.2 (by decide)⟩

/-- C2 counterexample: on a space whose single domain entry "a" is marked
default, `set-default-domain b` returns the failed-to-find error but the
configuration object it was applied to IS changed: the entry's default
flag has been cleared during the scan. -/
theorem C2_counterexample :
    (setDefaultDomainMutator "b" spaceDefaultA).2 = some "failed to find domain b" ∧
    (setDefaultDomainMutator "b" spaceDefaultA).1 ≠ spaceDefaultA := by
  refine ⟨by decide, by decide⟩

/-- C2 (amended): when no entry matches, the mutator returns the
"failed to find domain" error, and the space it mutated in place has every
entry's default flag cleared to false (names and order untouched); in
particular a space none of whose entries was marked default is left
entirely unchanged. -/
theorem C2_set_default_not_found (domain : String) (s : Space)
    (hnone : s.Spec.Execution.Domains.any (fun d => d.Domain == domain) = false) :
    (setDefaultDomainMutator domain s).2 = some ("failed to find domain " ++ domain) ∧
    (setDefaultDomainMutator domain s).1.Spec.Execution.Domains =
      s.Spec.Execution.Domains.map (fun d => { d with Default := false }) ∧
    ((∀ d ∈ s.Spec.Execution.Domains, d.Default = false) →
      (setDefaultDomainMutator domain s).1 = s) := by
  have hmap : s.Spec.Execution.Domains.map
      (fun d => { d with Default := d.Domain == domain }) =
      s.Spec.Execution.Domains.map (fun d => { d with Default := false }) := by
    apply List.map_congr_left
    intro d hd
    have : (d.Domain == domain) = false := by
      by_contra hc
      have : (d.Domain == domain) = true := by
        cases h : (d.Domain == domain) with
        | false => exact absurd h hc
        | true => rfl
      exact absurd (List.any_eq_true.mpr ⟨d, hd, this⟩) (by rw [hnone]; simp)
    rw [this]
  refine ⟨?_, ?_, ?_⟩
  · rw [setDefaultDomainMutator_snd, hnone]
    rfl
  · rw [setDefaultDomainMutator_fst]
    simp only [Space.withExecDomains]
    exact hmap
  · intro hall
    rw [setDefaultDomainMutator_fst, hmap]
    have hid : s.Spec.Execution.Domains.map (fun d => { d with Default := false }) =
        s.Spec.Execution.Domains := by
      have hstep : s.Spec.Execution.Domains.map (fun d => { d with Default := false }) =
          s.Spec.Execution.Domains.map id := by
        apply List.map_congr_left
        intro d hd
        have hf := hall d hd
        cases d with
        | mk dom dflt => simp_all
      rw [hstep, List.map_id]
    rw [hid]
    cases s with
    | mk spec =>
      cases spec with
      | mk ex bp =>
        cases ex with
        | mk env ds => rfl

/-- C2 witness: on a space with no default-flagged entries, set-default of
an absent name errors and leaves the space unchanged. -/
theorem C2_set_default_not_found_witness :
    (setDefaultDomainMutator "z" spaceDupA).2 = some "failed to find domain z" ∧
    (setDefaultDomainMutator "z" spaceDupA).1 = spaceDupA := by
  have h := C2_set_default_not_found "z" spaceDupA (by decide)
  exact ⟨h.1, h.2.2 (by decide)⟩

/-- The domain list produced by `removeDomainMutator`, in closed form: an
ordered filter keeping the entries whose name differs from the argument. -/
theorem removeDomainMutator_fst (domain : String) (s : Space) :
    (removeDomainMutator domain s).1 =
      s.withExecDomains (s.Spec.Execution.Domains.filter (fun d => !(d.Domain == domain))) := by
  have hfilter : Delete s.Spec.Execution.Domains [{ Domain := domain, Default := false }] =
      s.Spec.Execution.Domains.filter (fun d => !(d.Domain == domain)) := by
    unfold Delete
    apply List.filter_congr
    intro d _
    by_cases h : d.Domain = domain
    · simp [h]
    · simp [h, Ne.symm h]
  show s.withExecDomains (Delete _ _) = _
  rw [hfilter]

/-- Updating the execution domains twice keeps only the second update. -/
theorem withExecDomains_withExecDomains (s : Space) (l₁ l₂ : List SpaceDomain) :
    (s.withExecDomains l₁).withExecDomains l₂ = s.withExecDomains l₂ := rfl

/-- Projection of `Space.withExecDomains`. -/
theorem withExecDomains_Domains (s : Space) (l : List SpaceDomain) :
    (s.withExecDomains l).Spec.Execution.Domains = l := rfl

/-- C3: the remove-domain mutator is set difference keyed by domain name:
it never errors, its result is the ordered filter dropping the entries
named by the argument, and when no entry has that name the space is left
exactly as it was. -/
theorem C3_remove_domain_set_difference (domain : String) (s : Space) :
    (removeDomainMutator domain s).2 = none ∧
    (removeDomainMutator domain s).1.Spec.Execution.Domains =
      s.Spec.Execution.Domains.filter (fun d => !(d.Domain == domain)) ∧
    ((∀ d ∈ s.Spec.Execution.Domains, d.Domain ≠ domain) →
      (removeDomainMutator domain s).1 = s) := by
  refine ⟨rfl, ?_, ?_⟩
  · rw [removeDomainMutator_fst, withExecDomains_Domains]
  · intro habs
    rw [removeDomainMutator_fst]
    have hkeep : s.Spec.Execution.Domains.filter (fun d => !(d.Domain == domain)) =
        s.Spec.Execution.Domains := by
      apply List.filter_eq_self.mpr
      intro d hd
      simpa using habs d hd
    rw [hkeep]
    cases s with
    | mk spec =>
      cases spec with
      | mk ex bp =>
        cases ex with
        | mk env ds => rfl

/-- C3 witness: removing an absent domain from a concrete space is a no-op
and errors nothing. -/
theorem C3_remove_domain_set_difference_witness :
    (removeDomainMutator "z" sampleSpace).2 = none ∧
    (removeDomainMutator "z" sampleSpace).1 = sampleSpace := by
  have h := C3_remove_domain_set_difference "z" sampleSpace
  exact ⟨h.1, h.2.2 (by decide)⟩

/-- C4: the append-domain mutator always succeeds and its result is the old
domain list plus exactly one new entry bearing the given name, placed at
the end. -/
theorem C4_append_domain_appends (domain : String) (s : Space) :
    (appendDomainMutator domain s).2 = none ∧
    (appendDomainMutator domain s).1.Spec.Execution.Domains =
      s.Spec.Execution.Domains ++ [{ Domain := domain, Default := false }] ∧
    (appendDomainMutator domain s).1.Spec.Execution.Domains.length =
      s.Spec.Execution.Domains.length + 1 := by
  refine ⟨rfl, rfl, ?_⟩
  show (s.Spec.Execution.Domains ++
    [({ Domain := domain, Default := false } : SpaceDomain)]).length = _
  simp

/-- C10: append-domain adds its entry with the is-default flag false and
leaves every pre-existing entry untouched (the old list is a prefix of the
new one), so the default-flagged entries are exactly those of the old
list. -/
theorem C10_append_domain_frame (domain : String) (s : Space) :
    ((appendDomainMutator domain s).1.Spec.Execution.Domains.take
      s.Spec.Execution.Domains.length = s.Spec.Execution.Domains) ∧
    (∃ newEntry : SpaceDomain,
      (appendDomainMutator domain s).1.Spec.Execution.Domains =
        s.Spec.Execution.Domains ++ [newEntry] ∧
      newEntry.Domain = domain ∧ newEntry.Default = false) ∧
    ((appendDomainMutator domain s).1.Spec.Execution.Domains.filter (fun d => d.Default) =
      s.Spec.Execution.Domains.filter (fun d => d.Default)) := by
  refine ⟨?_, ⟨{ Domain := domain, Default := false }, rfl, rfl, rfl⟩, ?_⟩
  · show (s.Spec.Execution.Domains ++
      [({ Domain := domain, Default := false } : SpaceDomain)]).take _ = _
    exact List.take_left _ _
  · show (s.Spec.Execution.Domains ++
      [({ Domain := domain, Default := false } : SpaceDomain)]).filter (fun d => d.Default) = _
    simp

/-- C9: the domain-editing mutators are idempotent under repeated
application with identical arguments, for every space and every domain
name (present or not): removing a domain twice yields the same domain set
as removing it once, and setting the default domain twice yields the same
domain set as doing it once. -/
theorem C9_domain_mutator_idempotent (domain : String) (s : Space) :
    (removeDomainMutator domain (removeDomainMutator domain s).1).1 =
      (removeDomainMutator domain s).1 ∧
    (setDefaultDomainMutator domain (setDefaultDomainMutator domain s).1).1 =
      (setDefaultDomainMutator domain s).1 := by
  constructor
  · rw [removeDomainMutator_fst, removeDomainMutator_fst, withExecDomains_withExecDomains,
      withExecDomains_Domains, List.filter_filter]
    congr 1
    apply List.filter_congr
    intro d _
    cases h : (d.Domain == domain) <;> simp [h]
  · rw [setDefaultDomainMutator_fst, setDefaultDomainMutator_fst,
      withExecDomains_withExecDomains, withExecDomains_Domains, List.map_map]
    congr 1

/-- C9 witness: on a concrete space, removing "b" twice equals removing it
once, and setting default "a" twice equals setting it once. -/
theorem C9_domain_mutator_idempotent_witness :
    (removeDomainMutator "a" (removeDomainMutator "a" sampleSpace).1).1 =
      (removeDomainMutator "a" sampleSpace).1 ∧
    (setDefaultDomainMutator "a" (setDefaultDomainMutator "a" sampleSpace).1).1 =
      (setDefaultDomainMutator "a" sampleSpace).1 :=
  C9_domain_mutator_idempotent "a" sampleSpace

/-- Removing a single name is an ordered filter on that name. -/
theorem RemoveEnvVars_singleton (name : String) (env : List EnvVar) :
    RemoveEnvVars [name] env = env.filter (fun e => !(e.Name == name)) := by
  unfold RemoveEnvVars
  apply List.filter_congr
  intro e _
  by_cases h : e.Name = name
  · simp [h]
  · simp [h, Ne.symm h]

/-- Projection of `Space.withExecEnv`. -/
theorem withExecEnv_Env (s : Space) (e : List EnvVar) :
    (s.withExecEnv e).Spec.Execution.Env = e := rfl

/-- Projection of `Space.withBuildpackEnv`. -/
theorem withBuildpackEnv_Env (s : Space) (e : List EnvVar) :
    (s.withBuildpackEnv e).Spec.BuildpackBuild.Env = e := rfl

/-- Writing back a space's own execution env is the identity. -/
theorem withExecEnv_self (s : Space) : s.withExecEnv s.Spec.Execution.Env = s := by
  cases s with
  | mk spec =>
    cases spec with
    | mk ex bp =>
      cases ex with
      | mk env ds => rfl

/-- Writing back a space's own buildpack env is the identity. -/
theorem withBuildpackEnv_self (s : Space) :
    s.withBuildpackEnv s.Spec.BuildpackBuild.Env = s := by
  cases s with
  | mk spec =>
    cases spec with
    | mk ex bp =>
      cases bp with
      | mk cr bi env => rfl

/-- The remove-then-append list of the set-env mutators: it equals the
filter of the old list plus the new variable, the only variable named `K`
in it is the new one, and the new one is last. -/
theorem setEnvList_spec (K V : String) (env : List EnvVar) :
    RemoveEnvVars [K] env ++ [({ Name := K, Value := V } : EnvVar)] =
      env.filter (fun e => !(e.Name == K)) ++ [{ Name := K, Value := V }] ∧
    (RemoveEnvVars [K] env ++ [({ Name := K, Value := V } : EnvVar)]).filter
      (fun e => e.Name == K) = [{ Name := K, Value := V }] ∧
    (RemoveEnvVars [K] env ++ [({ Name := K, Value := V } : EnvVar)]).getLast? =
      some { Name := K, Value := V } := by
  rw [RemoveEnvVars_singleton]
  refine ⟨rfl, ?_, List.getLast?_concat _⟩
  rw [List.filter_append, List.filter_filter]
  simp

/-- Removing an absent name is a no-op. -/
theorem unsetEnvList_noop (KA : String) (env : List EnvVar)
    (habs : ∀ e ∈ env, e.Name ≠ KA) : RemoveEnvVars [KA] env = env := by
  rw [RemoveEnvVars_singleton]
  apply List.filter_eq_self.mpr
  intro e he
  simpa using habs e he

/-- C5: set-env removes every variable named K and appends K=V last, so the
result holds exactly one variable named K (with value V), preserves the
relative order of the others, and places the new variable last; unset-env
of an absent key is a no-op.  The same holds for the buildpack-env pair of
mutators. -/
theorem C5_env_set_unset (s : Space) (K V KA : String)
    (habs : ∀ e ∈ s.Spec.Execution.Env, e.Name ≠ KA)
    (habsB : ∀ e ∈ s.Spec.BuildpackBuild.Env, e.Name ≠ KA) :
    ((setEnvMutator K V s).2 = none ∧
      (setEnvMutator K V s).1.Spec.Execution.Env =
        s.Spec.Execution.Env.filter (fun e => !(e.Name == K)) ++ [{ Name := K, Value := V }] ∧
      (setEnvMutator K V s).1.Spec.Execution.Env.filter (fun e => e.Name == K) =
        [{ Name := K, Value := V }] ∧
      (setEnvMutator K V s).1.Spec.Execution.Env.getLast? = some { Name := K, Value := V }) ∧
    ((unsetEnvMutator KA s).2 = none ∧ (unsetEnvMutator KA s).1 = s) ∧
    ((setBuildpackEnvMutator K V s).2 = none ∧
      (setBuildpackEnvMutator K V s).1.Spec.BuildpackBuild.Env =
        s.Spec.BuildpackBuild.Env.filter (fun e => !(e.Name == K)) ++
          [{ Name := K, Value := V }] ∧
      (setBuildpackEnvMutator K V s).1.Spec.BuildpackBuild.Env.filter
        (fun e => e.Name == K) = [{ Name := K, Value := V }] ∧
      (setBuildpackEnvMutator K V s).1.Spec.BuildpackBuild.Env.getLast? =
        some { Name := K, Value := V }) ∧
    ((unsetBuildpackEnvMutator KA s).2 = none ∧ (unsetBuildpackEnvMutator KA s).1 = s) := by
  have hx := setEnvList_spec K V s.Spec.Execution.Env
  have hb := setEnvList_spec K V s.Spec.BuildpackBuild.Env
  refine ⟨⟨rfl, hx.1, hx.2.1, hx.2.2⟩, ⟨rfl, ?_⟩, ⟨rfl, hb.1, hb.2.1, hb.2.2⟩, ⟨rfl, ?_⟩⟩
  · show s.withExecEnv (RemoveEnvVars [KA] s.Spec.Execution.Env) = s
    rw [unsetEnvList_noop KA _ habs, withExecEnv_self]
  · show s.withBuildpackEnv (RemoveEnvVars [KA] s.Spec.BuildpackBuild.Env) = s
    rw [unsetEnvList_noop KA _ habsB, withBuildpackEnv_self]

/-- C5 witness: on a concrete space, set-env replaces-and-appends, and
unset-env of an absent key leaves the space unchanged (likewise for the
buildpack env). -/
theorem C5_env_set_unset_witness :
    ((setEnvMutator "A" "9" sampleSpace).2 = none ∧
      (setEnvMutator "A" "9" sampleSpace).1.Spec.Execution.Env =
        sampleSpace.Spec.Execution.Env.filter (fun e => !(e.Name == "A")) ++
          [{ Name := "A", Value := "9" }] ∧
      (setEnvMutator "A" "9" sampleSpace).1.Spec.Execution.Env.filter
        (fun e => e.Name == "A") = [{ Name := "A", Value := "9" }] ∧
      (setEnvMutator "A" "9" sampleSpace).1.Spec.Execution.Env.getLast? =
        some { Name := "A", Value := "9" }) ∧
    ((unsetEnvMutator "Z" sampleSpace).2 = none ∧
      (unsetEnvMutator "Z" sampleSpace).1 = sampleSpace) ∧
    ((setBuildpackEnvMutator "A" "9" sampleSpace).2 = none ∧
      (setBuildpackEnvMutator "A" "9" sampleSpace).1.Spec.BuildpackBuild.Env =
        sampleSpace.Spec.BuildpackBuild.Env.filter (fun e => !(e.Name == "A")) ++
          [{ Name := "A", Value := "9" }] ∧
      (setBuildpackEnvMutator "A" "9" sampleSpace).1.Spec.BuildpackBuild.Env.filter
        (fun e => e.Name == "A") = [{ Name := "A", Value := "9" }] ∧
      (setBuildpackEnvMutator "A" "9" sampleSpace).1.Spec.BuildpackBuild.Env.getLast? =
        some { Name := "A", Value := "9" }) ∧
    ((unsetBuildpackEnvMutator "Z" sampleSpace).2 = none ∧
      (unsetBuildpackEnvMutator "Z" sampleSpace).1 = sampleSpace) :=
  C5_env_set_unset sampleSpace "A" "9" "Z" (by decide) (by decide)

/-- C6: gateway resolution over the candidate list: the empty list is the
"no gateway found" error, a singleton returns its element, and two or more
candidates is the "ambiguous gateway" error. -/
theorem C6_gateway_resolution :
    ExtractIngressFromList [] = .error "no gateway found" ∧
    (∀ g, ExtractIngressFromList [g] = .ok g) ∧
    (∀ g₁ g₂ rest, ExtractIngressFromList (g₁ :: g₂ :: rest) =
      .error "ambiguous gateway, specify explicitly") :=
  ⟨rfl, fun _ => rfl, fun _ _ _ => rfl⟩

/-- C7: for every inbound request, the director sets the request's host to
the target route host, the URL scheme to "http" and the URL host to the
gateway address, whatever the original request's scheme and host were, and
leaves method, path and body untouched. -/
theorem C7_proxy_director_rewrite (routeHost gateway : String) (req : Request) :
    (createProxyDirector routeHost gateway req).Host = routeHost ∧
    (createProxyDirector routeHost gateway req).URL.Scheme = "http" ∧
    (createProxyDirector routeHost gateway req).URL.Host = gateway ∧
    (createProxyDirector routeHost gateway req).Method = req.Method ∧
    (createProxyDirector routeHost gateway req).URL.Path = req.URL.Path ∧
    (createProxyDirector routeHost gateway req).Body = req.Body :=
  ⟨rfl, rfl, rfl, rfl, rfl, rfl⟩

/-- C8: with the no-start flag set and a gateway successfully resolved, the
proxy command prints the forwarding line naming the resolved gateway, the
example commands and the listener address, then returns successfully
without ever serving. -/
theorem C8_dry_run (host gatewayFlag gw : String) (candidates : List String)
    (listenerAddr : String)
    (hres : resolveGateway gatewayFlag candidates = .ok gw) :
    (proxyRouteRun host gatewayFlag candidates listenerAddr true).served = false ∧
    (proxyRouteRun host gatewayFlag candidates listenerAddr true).err = none ∧
    ("Forwarding requests from " ++ listenerAddr ++ " to " ++ gw ++ " with host " ++ host) ∈
      (proxyRouteRun host gatewayFlag candidates listenerAddr true).printed ∧
    "Example GET:" ∈ (proxyRouteRun host gatewayFlag candidates listenerAddr true).printed ∧
    "Example POST:" ∈ (proxyRouteRun host gatewayFlag candidates listenerAddr true).printed ∧
    ("  http://" ++ listenerAddr) ∈
      (proxyRouteRun host gatewayFlag candidates listenerAddr true).printed ∧
    "exiting because no-start flag was provided" ∈
      (proxyRouteRun host gatewayFlag candidates listenerAddr true).printed := by
  unfold proxyRouteRun
  rw [hres]
  simp [proxyInfoLines]

/-- C8 witness: a concrete dry-run with an explicit gateway prints the
expected lines, serves nothing and errors nothing. -/
theorem C8_dry_run_witness :
    (proxyRouteRun "myhost.example.com" "10.0.0.5:80" [] "127.0.0.1:8080" true).served = false ∧
    (proxyRouteRun "myhost.example.com" "10.0.0.5:80" [] "127.0.0.1:8080" true).err = none ∧
    ("Forwarding requests from " ++ "127.0.0.1:8080" ++ " to " ++ "10.0.0.5:80" ++
        " with host " ++ "myhost.example.com") ∈
      (proxyRouteRun "myhost.example.com" "10.0.0.5:80" [] "127.0.0.1:8080" true).printed ∧
    "Example GET:" ∈
      (proxyRouteRun "myhost.example.com" "10.0.0.5:80" [] "127.0.0.1:8080" true).printed ∧
    "Example POST:" ∈
      (proxyRouteRun "myhost.example.com" "10.0.0.5:80" [] "127.0.0.1:8080" true).printed ∧
    ("  http://" ++ "127.0.0.1:8080") ∈
      (proxyRouteRun "myhost.example.com" "10.0.0.5:80" [] "127.0.0.1:8080" true).printed ∧
    "exiting because no-start flag was provided" ∈
      (proxyRouteRun "myhost.example.com" "10.0.0.5:80" [] "127.0.0.1:8080" true).printed :=
  C8_dry_run "myhost.example.com" "10.0.0.5:80" "10.0.0.5:80" [] "127.0.0.1:8080" rfl

end Kf
